import Mathlib

/-!
# xo-jit: the in-process execution engine (`xo::jit::KaleidoscopeJIT`)

A shallow embedding of `include/xo/jit/KaleidoscopeJit.hpp`.

The engine is a thin layer over the ORC library.  The library objects the
engine owns are embedded as records, every library call the engine makes is
appended to a call log kept in the session, and the outcomes that only the
library or the host can decide (probing the host, computing a data layout,
loading the current process, compiling and linking a unit, ending a session)
are fields of a `Host` record over which all theorems quantify.
-/

set_option autoImplicit false

namespace xo.jit

/-! ## Library data -/

/-- Payload of a failed `llvm::Error`. -/
abbrev ErrorInfo := String

/-- The type `llvm::Error`: `none` is success, `some e` a failure value. -/
abbrev Error := Option ErrorInfo

/-- The type `llvm::Expected<T>`: a value or a failure value. -/
abbrev Expected (α : Type) := Except ErrorInfo α

/-- Object file formats of `llvm::Triple`. -/
inductive ObjectFormatType where
  | UnknownObjectFormat
  | COFF
  | DXContainer
  | ELF
  | GOFF
  | MachO
  | SPIRV
  | Wasm
  | XCOFF
  deriving DecidableEq, Repr

/-- Target triple: its text and the object format parsed from it. -/
structure Triple where
  Data : String
  ObjectFormat : ObjectFormatType
  deriving DecidableEq, Repr

/-- Test `Triple::isOSBinFormatCOFF`. -/
def Triple.isOSBinFormatCOFF (T : Triple) : Bool :=
  decide (T.ObjectFormat = ObjectFormatType.COFF)

/-- State of a `Triple` after it has been moved from: the text is left
unspecified (`residue`), the scalar members keep their value. -/
def Triple.movedFrom (residue : String) (T : Triple) : Triple :=
  { T with Data := residue }

/-- Data layout: its text and the global symbol prefix of its mangling mode
(the NUL character when the mode has none). -/
structure DataLayout where
  StringRepresentation : String
  GlobalPrefix : Char
  deriving DecidableEq, Repr

/-- Accessor `DataLayout::getGlobalPrefix`. -/
def DataLayout.getGlobalPrefix (DL : DataLayout) : Char :=
  DL.GlobalPrefix

/-- State of a `DataLayout` after `std::move`: the text is left unspecified,
the scalar members keep their value. -/
def DataLayout.movedFrom (residue : String) (DL : DataLayout) : DataLayout :=
  { DL with StringRepresentation := residue }

/-- Description of the process the code runs in. -/
structure ExecutorProcessControl where
  TargetTriple : Triple
  PageSize : Nat
  deriving DecidableEq, Repr

/-- Accessor `ExecutorProcessControl::getTargetTriple`. -/
def ExecutorProcessControl.getTargetTriple (EPC : ExecutorProcessControl) : Triple :=
  EPC.TargetTriple

/-- Builder of target machines; constructed from a triple. -/
structure JITTargetMachineBuilder where
  TT : Triple
  deriving DecidableEq, Repr

/-- Accessor `JITTargetMachineBuilder::getTargetTriple`. -/
def JITTargetMachineBuilder.getTargetTriple (JTMB : JITTargetMachineBuilder) : Triple :=
  JTMB.TT

/-- State of a builder after `std::move`. -/
def JITTargetMachineBuilder.movedFrom (residue : String) (JTMB : JITTargetMachineBuilder) :
    JITTargetMachineBuilder :=
  { TT := JTMB.TT.movedFrom residue }

/-- Address and basic descriptor of a resolved symbol. -/
structure ExecutorSymbolDef where
  Address : Nat
  Callable : Bool
  deriving DecidableEq, Repr

/-- Interned symbol name: the session whose string pool holds it and its text. -/
structure SymbolStringPtr where
  Pool : Nat
  S : String
  deriving DecidableEq, Repr

/-- Generator answering lookups from the symbols of the running process. -/
structure DynamicLibrarySearchGenerator where
  GlobalPrefix : Char
  deriving DecidableEq, Repr

/-- IR module: its identifier and the linker-level names it defines. -/
structure Module where
  ModuleID : String
  Symbols : List String
  deriving DecidableEq, Repr

/-- Move-only owning handle of a module; `M = none` is the empty handle. -/
structure ThreadSafeModule where
  M : Option Module
  deriving DecidableEq, Repr

/-- Linker-level names defined by the module a handle owns. -/
def ThreadSafeModule.symbols (TSM : ThreadSafeModule) : List String :=
  match TSM.M with
  | some m => m.Symbols
  | none => []

/-- Resource tracker: the dylib (index in the session) it belongs to and its
key; key `0` is the dylib's default tracker. -/
structure ResourceTracker where
  JD : Nat
  Key : Nat
  deriving DecidableEq, Repr

/-- The type `ResourceTrackerSP`: `none` is the null pointer. -/
abbrev ResourceTrackerSP := Option ResourceTracker

/-- Dynamic library of a session. -/
structure JITDylib where
  Name : String
  Generators : List DynamicLibrarySearchGenerator
  Symbols : List (String × ExecutorSymbolDef)
  deriving DecidableEq, Repr

/-- Library calls made through a session, in the order they are issued. -/
inductive OrcCall where
  | createBareJITDylib (Name : String)
  | addGenerator (JD : Nat) (G : DynamicLibrarySearchGenerator)
  | add (RT : ResourceTracker) (TSM : ThreadSafeModule)
  | lookup (SearchOrder : List Nat) (Name : SymbolStringPtr)
  | endSession
  | reportError (Err : ErrorInfo)
  | dump
  deriving DecidableEq, Repr

/-- Execution session: identity of the object, the process control it was built
on, the dylibs it created, whether it is still open, the errors reported on its
error channel, and the log of calls made through it. -/
structure ExecutionSession where
  Id : Nat
  EPC : ExecutorProcessControl
  JDs : List JITDylib
  SessionOpen : Bool
  Reported : List ErrorInfo
  Log : List OrcCall
  deriving DecidableEq, Repr

/-- What only the host and the library decide. -/
structure Host where
  /-- Result of `SelfExecutorProcessControl::Create()`. -/
  SelfCreate : Expected ExecutorProcessControl
  /-- Result of `JITTargetMachineBuilder::getDefaultDataLayoutForTarget()`. -/
  getDefaultDataLayoutForTarget : JITTargetMachineBuilder → Expected DataLayout
  /-- Failure of loading the current process as a library, if any. -/
  LoadCurrentProcess : Error
  /-- Symbols exported by the running process. -/
  ProcessSymbols : List (String × ExecutorSymbolDef)
  /-- Compile and link outcome of `IRCompileLayer::add`. -/
  CompileAdd : ExecutionSession → ResourceTracker → ThreadSafeModule → Error
  /-- Where a defined symbol is placed. -/
  Place : String → ExecutorSymbolDef
  /-- Outcome of `ExecutionSession::endSession`. -/
  EndSession : ExecutionSession → Error
  /-- Identity of the next session object allocated. -/
  SessionId : Nat
  /-- Text left in a moved-from string. -/
  Residue : String

/-! ## Library operations -/

/-- Constructor `ExecutionSession(std::unique_ptr<ExecutorProcessControl>)`. -/
def ExecutionSession.new (Id : Nat) (EPC : ExecutorProcessControl) : ExecutionSession :=
  { Id := Id, EPC := EPC, JDs := [], SessionOpen := true, Reported := [], Log := [] }

/-- Accessor `ExecutionSession::getExecutorProcessControl`. -/
def ExecutionSession.getExecutorProcessControl (ES : ExecutionSession) :
    ExecutorProcessControl :=
  ES.EPC

/-- Append a call to the session log. -/
def ExecutionSession.record (ES : ExecutionSession) (c : OrcCall) : ExecutionSession :=
  { ES with Log := ES.Log ++ [c] }

/-- Method `ExecutionSession::createBareJITDylib`: a new dylib without
generators or symbols; the reference returned is its index. -/
def ExecutionSession.createBareJITDylib (ES : ExecutionSession) (Name : String) :
    Nat × ExecutionSession :=
  (ES.JDs.length,
    { ES.record (OrcCall.createBareJITDylib Name) with
      JDs := ES.JDs ++ [{ Name := Name, Generators := [], Symbols := [] }] })

/-- Replace the dylib at index `i`. -/
def ExecutionSession.modifyJD (ES : ExecutionSession) (i : Nat) (f : JITDylib → JITDylib) :
    ExecutionSession :=
  { ES with JDs := ES.JDs.modify f i }

/-- Method `JITDylib::addGenerator` on the dylib at index `JD`. -/
def ExecutionSession.addGenerator (ES : ExecutionSession) (JD : Nat)
    (G : DynamicLibrarySearchGenerator) : ExecutionSession :=
  (ES.record (OrcCall.addGenerator JD G)).modifyJD JD
    (fun d => { d with Generators := d.Generators ++ [G] })

/-- Method `JITDylib::getDefaultResourceTracker` of the dylib at index `JD`. -/
def JITDylib.getDefaultResourceTracker (JD : Nat) : ResourceTracker :=
  { JD := JD, Key := 0 }

/-- Factory `DynamicLibrarySearchGenerator::GetForCurrentProcess`. -/
def DynamicLibrarySearchGenerator.GetForCurrentProcess (host : Host) (GlobalPrefix : Char) :
    Expected DynamicLibrarySearchGenerator :=
  match host.LoadCurrentProcess with
  | some e => Except.error e
  | none => Except.ok { GlobalPrefix := GlobalPrefix }

/-- Modelled from the spec: the generator of the main dylib "makes all symbols
already present in the running process visible to newly linked code"; the
library source is not part of the repository.  The global prefix is removed
from the linker-level name before the process is asked. -/
def DynamicLibrarySearchGenerator.tryToGenerate (host : Host)
    (G : DynamicLibrarySearchGenerator) (Name : SymbolStringPtr) : Option ExecutorSymbolDef :=
  if G.GlobalPrefix = Char.ofNat 0 then
    host.ProcessSymbols.lookup Name.S
  else
    match Name.S.data with
    | c :: rest => if c = G.GlobalPrefix then host.ProcessSymbols.lookup ⟨rest⟩ else none
    | [] => none

/-- Modelled from the spec: a name resolves in a dylib when it "exists anywhere
in the dylib's generators or linked units"; the library source is not part of
the repository. -/
def JITDylib.find (host : Host) (D : JITDylib) (Name : SymbolStringPtr) :
    Option ExecutorSymbolDef :=
  match D.Symbols.lookup Name.S with
  | some d => some d
  | none => D.Generators.findSome? (fun G => G.tryToGenerate host Name)

/-- Failure value of a lookup that found no definition. -/
def SymbolsNotFound (Name : SymbolStringPtr) : ErrorInfo :=
  "Symbols not found: [ " ++ Name.S ++ " ]"

/-- Modelled from the spec: `ExecutionSession::lookup(SearchOrder, Name)`
"returns the native address and basic descriptor on success; returns an error
if no such symbol exists"; the dylibs of the search order are asked in order.
The library source is not part of the repository. -/
def ExecutionSession.lookup (host : Host) (ES : ExecutionSession) (SearchOrder : List Nat)
    (Name : SymbolStringPtr) : Expected ExecutorSymbolDef × ExecutionSession :=
  let ES1 := ES.record (OrcCall.lookup SearchOrder Name)
  match SearchOrder.findSome? (fun i => ES.JDs[i]?.bind (fun D => D.find host Name)) with
  | some d => (Except.ok d, ES1)
  | none => (Except.error (SymbolsNotFound Name), ES1)

/-- Method `ExecutionSession::endSession`: closes the session; whether it
reports a failure is decided by the host. -/
def ExecutionSession.endSession (host : Host) (ES : ExecutionSession) :
    Error × ExecutionSession :=
  (host.EndSession ES, { ES.record OrcCall.endSession with SessionOpen := false })

/-- Method `ExecutionSession::reportError`: the error goes to the session's
error channel. -/
def ExecutionSession.reportError (ES : ExecutionSession) (Err : ErrorInfo) : ExecutionSession :=
  { ES.record (OrcCall.reportError Err) with Reported := ES.Reported ++ [Err] }

/-- Method `ExecutionSession::dump`. -/
def ExecutionSession.dump (ES : ExecutionSession) : ExecutionSession :=
  ES.record OrcCall.dump

/-- Name mangler: the session whose pool it interns into and the data layout
it mangles with (both held by reference in the source). -/
structure MangleAndInterner where
  ES : Nat
  DL : DataLayout
  deriving DecidableEq, Repr

/-- Linker-level form of a name: the global prefix of the data layout, when
there is one, followed by the name. -/
def getNameWithPrefix (DL : DataLayout) (Name : String) : String :=
  if DL.getGlobalPrefix = Char.ofNat 0 then Name else ⟨DL.getGlobalPrefix :: Name.data⟩

/-- Call operator `MangleAndInterner::operator()`. -/
def MangleAndInterner.call (Mangle : MangleAndInterner) (Name : String) : SymbolStringPtr :=
  { Pool := Mangle.ES, S := getNameWithPrefix Mangle.DL Name }

/-- Memory manager factory handed to the linking layer. -/
inductive GetMemoryManagerFunction where
  | SectionMemoryManager
  deriving DecidableEq, Repr

/-- Linking layer; both flags are off in a newly constructed layer. -/
structure RTDyldObjectLinkingLayer where
  ES : Nat
  GetMemoryManager : GetMemoryManagerFunction
  OverrideObjectFlags : Bool
  AutoClaimObjectSymbols : Bool
  deriving DecidableEq, Repr

/-- Constructor `RTDyldObjectLinkingLayer(ES, GetMemoryManager)`. -/
def RTDyldObjectLinkingLayer.new (ES : ExecutionSession) (G : GetMemoryManagerFunction) :
    RTDyldObjectLinkingLayer :=
  { ES := ES.Id, GetMemoryManager := G, OverrideObjectFlags := false,
    AutoClaimObjectSymbols := false }

/-- Setter `setOverrideObjectFlagsWithResponsibilityFlags`. -/
def RTDyldObjectLinkingLayer.setOverrideObjectFlagsWithResponsibilityFlags
    (L : RTDyldObjectLinkingLayer) (b : Bool) : RTDyldObjectLinkingLayer :=
  { L with OverrideObjectFlags := b }

/-- Setter `setAutoClaimResponsibilityForObjectSymbols`. -/
def RTDyldObjectLinkingLayer.setAutoClaimResponsibilityForObjectSymbols
    (L : RTDyldObjectLinkingLayer) (b : Bool) : RTDyldObjectLinkingLayer :=
  { L with AutoClaimObjectSymbols := b }

/-- Compiler usable from several threads; owns the builder moved into it. -/
structure ConcurrentIRCompiler where
  JTMB : JITTargetMachineBuilder
  deriving DecidableEq, Repr

/-- Data members of `KaleidoscopeJIT`, in declaration order. -/
inductive Member where
  | ES
  | DL
  | Mangle
  | ObjectLayer
  | CompileLayer
  | MainJD
  deriving DecidableEq, Repr

/-- Compile layer: the session and the base layer it sits on (a reference to
a sibling member in the source) and its compiler. -/
structure IRCompileLayer where
  ES : Nat
  BaseLayer : Member
  Compile : ConcurrentIRCompiler
  deriving DecidableEq, Repr

/-- Modelled from the spec: `IRCompileLayer::add(RT, TSM)` "returns an error if
compilation fails or if linking fails", in which case "the unit's code is not
considered loaded"; otherwise the unit's "symbols become visible to future
lookups" in the dylib of the tracker.  Whether it fails is decided by the
host (`Host.CompileAdd`).  The library source is not part of the repository. -/
def IRCompileLayer.add (host : Host) (_L : IRCompileLayer) (ES : ExecutionSession)
    (RT : ResourceTracker) (TSM : ThreadSafeModule) : Error × ExecutionSession :=
  let ES1 := ES.record (OrcCall.add RT TSM)
  match host.CompileAdd ES RT TSM with
  | some e => (some e, ES1)
  | none =>
    (none, ES1.modifyJD RT.JD
      (fun d => { d with Symbols := d.Symbols ++ TSM.symbols.map (fun s => (s, host.Place s)) }))


/-! ## The engine -/

/-- Ways the process stops instead of returning. -/
inductive Fault where
  /-- A failure value reached `cantFail`. -/
  | cantFail (e : ErrorInfo)
  /-- A null `std::unique_ptr<ExecutionSession>` was dereferenced. -/
  | nullSession
  /-- A member was read before its initialiser ran. -/
  | uninitialised (m : Member)
  deriving DecidableEq, Repr

/-- Helper `llvm::cantFail`: the value, or the process stops. -/
def cantFail {α : Type} (v : Expected α) : Except Fault α :=
  match v with
  | Except.ok a => Except.ok a
  | Except.error e => Except.error (Fault.cantFail e)

/-- The object under construction: a member is `none` until its initialiser
has run.  The member `ES` is a `std::unique_ptr`, itself null or not. -/
structure Members where
  ES : Option (Option ExecutionSession)
  DL : Option DataLayout
  Mangle : Option MangleAndInterner
  ObjectLayer : Option RTDyldObjectLinkingLayer
  CompileLayer : Option IRCompileLayer
  MainJD : Option Nat
  deriving DecidableEq, Repr

/-- No initialiser has run yet. -/
def Members.none : Members :=
  { ES := Option.none, DL := Option.none, Mangle := Option.none, ObjectLayer := Option.none,
    CompileLayer := Option.none, MainJD := Option.none }

/-- Read `*this->ES`. -/
def Members.derefES (this : Members) : Except Fault ExecutionSession :=
  match this.ES with
  | Option.none => Except.error (Fault.uninitialised Member.ES)
  | some Option.none => Except.error Fault.nullSession
  | some (some s) => Except.ok s

/-- Read `this->DL`. -/
def Members.readDL (this : Members) : Except Fault DataLayout :=
  match this.DL with
  | Option.none => Except.error (Fault.uninitialised Member.DL)
  | some d => Except.ok d

/-- Read `this->Mangle`. -/
def Members.readMangle (this : Members) : Except Fault MangleAndInterner :=
  match this.Mangle with
  | Option.none => Except.error (Fault.uninitialised Member.Mangle)
  | some d => Except.ok d

/-- Read `ObjectLayer`. -/
def Members.readObjectLayer (this : Members) : Except Fault RTDyldObjectLinkingLayer :=
  match this.ObjectLayer with
  | Option.none => Except.error (Fault.uninitialised Member.ObjectLayer)
  | some d => Except.ok d

/-- Read `CompileLayer`. -/
def Members.readCompileLayer (this : Members) : Except Fault IRCompileLayer :=
  match this.CompileLayer with
  | Option.none => Except.error (Fault.uninitialised Member.CompileLayer)
  | some d => Except.ok d

/-- Read `MainJD`. -/
def Members.readMainJD (this : Members) : Except Fault Nat :=
  match this.MainJD with
  | Option.none => Except.error (Fault.uninitialised Member.MainJD)
  | some d => Except.ok d

/-- The engine.  `ES` is the session owned through the `std::unique_ptr`
member (non-null in every constructed engine, see `Members.derefES`), `MainJD`
the index of the referenced dylib in the session. -/
structure KaleidoscopeJIT where
  ES : ExecutionSession
  DL : DataLayout
  Mangle : MangleAndInterner
  ObjectLayer : RTDyldObjectLinkingLayer
  CompileLayer : IRCompileLayer
  MainJD : Nat
  deriving DecidableEq, Repr

/-- Order in which the members are declared, hence initialised. -/
def declarationOrder : List Member :=
  [Member.ES, Member.DL, Member.Mangle, Member.ObjectLayer, Member.CompileLayer, Member.MainJD]

/-- Members read by the initialiser of each member in the constructor's
initialiser list. -/
def initialiserReads : Member → List Member
  | Member.ES => []
  | Member.DL => []
  | Member.Mangle => [Member.ES, Member.DL]
  | Member.ObjectLayer => [Member.ES]
  | Member.CompileLayer => [Member.ES, Member.ObjectLayer]
  | Member.MainJD => [Member.ES]

/-- Constructor `KaleidoscopeJIT(ES, JTMB, DL)`.  The initialisers run in
declaration order; the body then runs on the moved-from parameters `DL` and
`JTMB`. -/
def KaleidoscopeJIT.ctor (host : Host) (ES : Option ExecutionSession)
    (JTMB : JITTargetMachineBuilder) (DL : DataLayout) : Except Fault KaleidoscopeJIT := do
  let this := Members.none
  -- ES(std::move(ES))
  let this := { this with ES := some ES }
  -- DL(std::move(DL))
  let this := { this with DL := some DL }
  let DL := DL.movedFrom host.Residue
  -- Mangle(*this->ES, this->DL)
  let s ← this.derefES
  let d ← this.readDL
  let this := { this with Mangle := some { ES := s.Id, DL := d } }
  -- ObjectLayer(*this->ES, []() { return std::make_unique<SectionMemoryManager>(); })
  let s ← this.derefES
  let this := { this with
    ObjectLayer := some (RTDyldObjectLinkingLayer.new s GetMemoryManagerFunction.SectionMemoryManager) }
  -- CompileLayer(*this->ES, ObjectLayer, std::make_unique<ConcurrentIRCompiler>(std::move(JTMB)))
  let s ← this.derefES
  let _ ← this.readObjectLayer
  let this := { this with
    CompileLayer := some { ES := s.Id, BaseLayer := Member.ObjectLayer, Compile := { JTMB := JTMB } } }
  let JTMB := JTMB.movedFrom host.Residue
  -- MainJD(this->ES->createBareJITDylib("<main>"))
  let s ← this.derefES
  let (jd, s) := s.createBareJITDylib "<main>"
  let this := { this with ES := some (some s), MainJD := some jd }
  -- MainJD.addGenerator(cantFail(GetForCurrentProcess(DL.getGlobalPrefix())))
  let G ← cantFail (DynamicLibrarySearchGenerator.GetForCurrentProcess host DL.getGlobalPrefix)
  let jd ← this.readMainJD
  let s ← this.derefES
  let this := { this with ES := some (some (s.addGenerator jd G)) }
  -- if (JTMB.getTargetTriple().isOSBinFormatCOFF()) { ... }
  let L ← this.readObjectLayer
  let this :=
    if JTMB.getTargetTriple.isOSBinFormatCOFF then
      { this with
        ObjectLayer := some
          ((L.setOverrideObjectFlagsWithResponsibilityFlags true).setAutoClaimResponsibilityForObjectSymbols
            true) }
    else this
  return {
    ES := ← this.derefES
    DL := ← this.readDL
    Mangle := ← this.readMangle
    ObjectLayer := ← this.readObjectLayer
    CompileLayer := ← this.readCompileLayer
    MainJD := ← this.readMainJD }

/-- Destructor `~KaleidoscopeJIT()`; the result is the session as it is left. -/
def KaleidoscopeJIT.dtor (host : Host) (J : KaleidoscopeJIT) : ExecutionSession :=
  match J.ES.endSession host with
  | (some Err, ES) => ES.reportError Err
  | (none, ES) => ES

/-- Static `KaleidoscopeJIT::Create()`: the outer result tells whether the
call returns at all, the inner one is the `llvm::Expected` it returns. -/
def KaleidoscopeJIT.Create (host : Host) : Except Fault (Expected KaleidoscopeJIT) :=
  match host.SelfCreate with
  | Except.error e => Except.ok (Except.error e)
  | Except.ok EPC =>
    let ES := ExecutionSession.new host.SessionId EPC
    let JTMB : JITTargetMachineBuilder := { TT := ES.getExecutorProcessControl.getTargetTriple }
    match host.getDefaultDataLayoutForTarget JTMB with
    | Except.error e => Except.ok (Except.error e)
    | Except.ok DL =>
      match KaleidoscopeJIT.ctor host (some ES) JTMB DL with
      | Except.error f => Except.error f
      | Except.ok J => Except.ok (Except.ok J)

/-- Accessor `getDataLayout()`. -/
def KaleidoscopeJIT.getDataLayout (J : KaleidoscopeJIT) : DataLayout :=
  J.DL

/-- Accessor `getMainJITDylib()`. -/
def KaleidoscopeJIT.getMainJITDylib (J : KaleidoscopeJIT) : Nat :=
  J.MainJD

/-- Method `addModule(TSM, RT)`; `RT = none` is the null (default) argument. -/
def KaleidoscopeJIT.addModule (host : Host) (J : KaleidoscopeJIT) (TSM : ThreadSafeModule)
    (RT : ResourceTrackerSP) : Error × KaleidoscopeJIT :=
  let RT : ResourceTracker :=
    match RT with
    | none => JITDylib.getDefaultResourceTracker J.MainJD
    | some r => r
  let (Err, ES) := IRCompileLayer.add host J.CompileLayer J.ES RT TSM
  (Err, { J with ES := ES })

/-- Method `lookup(Name)`. -/
def KaleidoscopeJIT.lookup (host : Host) (J : KaleidoscopeJIT) (Name : String) :
    Expected ExecutorSymbolDef × KaleidoscopeJIT :=
  let (r, ES) := J.ES.lookup host [J.MainJD] (J.Mangle.call Name)
  (r, { J with ES := ES })

/-- Method `dump_execution_session()`. -/
def KaleidoscopeJIT.dump_execution_session (J : KaleidoscopeJIT) : KaleidoscopeJIT :=
  { J with ES := J.ES.dump }

/-- Operations a holder of the engine can invoke after construction. -/
inductive Op where
  | addModule (TSM : ThreadSafeModule) (RT : ResourceTrackerSP)
  | lookup (Name : String)
  | dump_execution_session
  deriving DecidableEq, Repr

/-- The engine after one operation. -/
def KaleidoscopeJIT.step (host : Host) (J : KaleidoscopeJIT) : Op → KaleidoscopeJIT
  | Op.addModule TSM RT => (J.addModule host TSM RT).2
  | Op.lookup Name => (J.lookup host Name).2
  | Op.dump_execution_session => J.dump_execution_session

/-- The engine after a sequence of operations. -/
def KaleidoscopeJIT.run (host : Host) (J : KaleidoscopeJIT) (ops : List Op) : KaleidoscopeJIT :=
  ops.foldl (KaleidoscopeJIT.step host) J

/-- Linker-level names of every unit handed to `addModule` in a sequence of
operations. -/
def submittedSymbols : List Op → List String
  | [] => []
  | Op.addModule TSM _ :: ops => TSM.symbols ++ submittedSymbols ops
  | _ :: ops => submittedSymbols ops


/-- Calls made through a session between two of its states. -/
def callsSince (before after : ExecutionSession) : List OrcCall :=
  after.Log.drop before.Log.length

/-- The tracker `addModule` submits under. -/
def KaleidoscopeJIT.trackerFor (J : KaleidoscopeJIT) (RT : ResourceTrackerSP) : ResourceTracker :=
  match RT with
  | none => JITDylib.getDefaultResourceTracker J.getMainJITDylib
  | some r => r

/-- The library call an operation makes. -/
def KaleidoscopeJIT.callOf (J : KaleidoscopeJIT) : Op → OrcCall
  | Op.addModule TSM RT => OrcCall.add (J.trackerFor RT) TSM
  | Op.lookup Name => OrcCall.lookup [J.getMainJITDylib] (J.Mangle.call Name)
  | Op.dump_execution_session => OrcCall.dump

/-- State of the main dylib: it exists under the name "<main>", holds the one
generator made for the engine's data layout, and defines only names that come
from the units in `subs`. -/
def MainInv (J : KaleidoscopeJIT) (subs : List String) : Prop :=
  ∃ D : JITDylib, J.ES.JDs[J.MainJD]? = some D ∧ D.Name = "<main>" ∧
    D.Generators = [{ GlobalPrefix := J.DL.getGlobalPrefix }] ∧
    ∀ p ∈ D.Symbols, p.1 ∈ subs

/-! ## Concrete hosts used to evaluate the embedding -/

/-- An ELF host whose process exports `sin`. -/
def elfHost : Host :=
  { SelfCreate := Except.ok
      { TargetTriple := { Data := "x86_64-unknown-linux-gnu", ObjectFormat := ObjectFormatType.ELF },
        PageSize := 4096 }
    getDefaultDataLayoutForTarget := fun _ =>
      Except.ok { StringRepresentation := "e-m:e", GlobalPrefix := Char.ofNat 0 }
    LoadCurrentProcess := none
    ProcessSymbols := [("sin", { Address := 4096, Callable := true })]
    CompileAdd := fun _ _ _ => none
    Place := fun s => { Address := 8192 + s.length, Callable := true }
    EndSession := fun _ => none
    SessionId := 1
    Residue := "" }

/-- The host `elfHost`, except that the current process cannot be loaded as a
library. -/
def loadFailHost : Host :=
  { elfHost with LoadCurrentProcess := some "cannot load the current process" }

/-- A session as `Create` makes it on `elfHost`. -/
def freshSession : ExecutionSession :=
  ExecutionSession.new 1
    { TargetTriple := { Data := "x86_64-unknown-linux-gnu", ObjectFormat := ObjectFormatType.ELF },
      PageSize := 4096 }

/-- Builder for the host of `elfHost`. -/
def elfBuilder : JITTargetMachineBuilder :=
  { TT := { Data := "x86_64-unknown-linux-gnu", ObjectFormat := ObjectFormatType.ELF } }

/-- Builder for a COFF target. -/
def coffBuilder : JITTargetMachineBuilder :=
  { TT := { Data := "x86_64-pc-windows-msvc", ObjectFormat := ObjectFormatType.COFF } }

/-- Data layout of `elfHost`. -/
def elfLayout : DataLayout :=
  { StringRepresentation := "e-m:e", GlobalPrefix := Char.ofNat 0 }

/-- A data layout whose mangling mode has the global prefix `_`. -/
def machoLayout : DataLayout :=
  { StringRepresentation := "e-m:o", GlobalPrefix := '_' }

/-- The engine's state right after a successful constructor run. -/
def constructed (s : ExecutionSession) (JTMB : JITTargetMachineBuilder)
    (DL : DataLayout) : KaleidoscopeJIT :=
  { ES :=
      { s with
        JDs := s.JDs ++
          [{ Name := "<main>", Generators := [{ GlobalPrefix := DL.GlobalPrefix }], Symbols := [] }]
        Log := s.Log ++
          [OrcCall.createBareJITDylib "<main>",
           OrcCall.addGenerator s.JDs.length { GlobalPrefix := DL.GlobalPrefix }] }
    DL := DL
    Mangle := { ES := s.Id, DL := DL }
    ObjectLayer :=
      { ES := s.Id
        GetMemoryManager := GetMemoryManagerFunction.SectionMemoryManager
        OverrideObjectFlags := JTMB.TT.isOSBinFormatCOFF
        AutoClaimObjectSymbols := JTMB.TT.isOSBinFormatCOFF }
    CompileLayer := { ES := s.Id, BaseLayer := Member.ObjectLayer, Compile := { JTMB := JTMB } }
    MainJD := s.JDs.length }

/-! ## Auxiliary lemmas -/

theorem modify_length_append {α : Type} (f : α → α) (l : List α) (a : α) :
    List.modify f l.length (l ++ [a]) = l ++ [f a] := by
  induction l with
  | nil => rfl
  | cons x xs ih => simp [List.modify_succ_cons, ih]

theorem movedFrom_isOSBinFormatCOFF (residue : String) (T : Triple) :
    (T.movedFrom residue).isOSBinFormatCOFF = T.isOSBinFormatCOFF := rfl

theorem ctor_eq (host : Host) (ES : Option ExecutionSession) (JTMB : JITTargetMachineBuilder)
    (DL : DataLayout) :
    KaleidoscopeJIT.ctor host ES JTMB DL =
      match ES with
      | none => Except.error Fault.nullSession
      | some s =>
        match host.LoadCurrentProcess with
        | some e => Except.error (Fault.cantFail e)
        | none => Except.ok (constructed s JTMB DL) := by
  cases ES with
  | none => rfl
  | some s =>
    cases h : host.LoadCurrentProcess with
    | some e =>
      simp [KaleidoscopeJIT.ctor, Members.derefES, Members.readDL, Members.readObjectLayer,
        Members.none, cantFail, DynamicLibrarySearchGenerator.GetForCurrentProcess, h,
        ExecutionSession.createBareJITDylib, bind, Except.bind]
    | none =>
      have hm := movedFrom_isOSBinFormatCOFF host.Residue JTMB.TT
      simp only [Triple.movedFrom] at hm
      cases hc : JTMB.TT.isOSBinFormatCOFF <;>
      simp [KaleidoscopeJIT.ctor, hm, modify_length_append, Members.derefES, Members.readDL, Members.readObjectLayer,
        Members.readMangle, Members.readCompileLayer, Members.readMainJD,
        Members.none, cantFail, DynamicLibrarySearchGenerator.GetForCurrentProcess, h,
        ExecutionSession.createBareJITDylib, bind, Except.bind, pure, Except.pure, constructed,
        ExecutionSession.addGenerator, ExecutionSession.record, ExecutionSession.modifyJD,
        JITTargetMachineBuilder.movedFrom, Triple.movedFrom, DataLayout.movedFrom,
        JITTargetMachineBuilder.getTargetTriple, DataLayout.getGlobalPrefix, hc,
        RTDyldObjectLinkingLayer.new,
        RTDyldObjectLinkingLayer.setOverrideObjectFlagsWithResponsibilityFlags,
        RTDyldObjectLinkingLayer.setAutoClaimResponsibilityForObjectSymbols]


theorem callsSince_append (s t : ExecutionSession) (cs : List OrcCall)
    (h : t.Log = s.Log ++ cs) : callsSince s t = cs := by
  simp [callsSince, h]

theorem addModule_eq (host : Host) (J : KaleidoscopeJIT) (TSM : ThreadSafeModule)
    (RT : ResourceTrackerSP) :
    J.addModule host TSM RT =
      ((IRCompileLayer.add host J.CompileLayer J.ES (J.trackerFor RT) TSM).1,
        { J with ES := (IRCompileLayer.add host J.CompileLayer J.ES (J.trackerFor RT) TSM).2 }) := by
  cases RT <;> rfl

theorem add_fst (host : Host) (L : IRCompileLayer) (ES : ExecutionSession) (RT : ResourceTracker)
    (TSM : ThreadSafeModule) :
    (IRCompileLayer.add host L ES RT TSM).1 = host.CompileAdd ES RT TSM := by
  unfold IRCompileLayer.add
  cases host.CompileAdd ES RT TSM <;> rfl

theorem add_log (host : Host) (L : IRCompileLayer) (ES : ExecutionSession) (RT : ResourceTracker)
    (TSM : ThreadSafeModule) :
    (IRCompileLayer.add host L ES RT TSM).2.Log = ES.Log ++ [OrcCall.add RT TSM] := by
  unfold IRCompileLayer.add
  cases host.CompileAdd ES RT TSM <;> rfl

theorem add_JDs (host : Host) (L : IRCompileLayer) (ES : ExecutionSession) (RT : ResourceTracker)
    (TSM : ThreadSafeModule) :
    (IRCompileLayer.add host L ES RT TSM).2.JDs =
      match host.CompileAdd ES RT TSM with
      | some _ => ES.JDs
      | none =>
        ES.JDs.modify
          (fun d => { d with Symbols := d.Symbols ++ TSM.symbols.map (fun s => (s, host.Place s)) })
          RT.JD := by
  unfold IRCompileLayer.add
  cases host.CompileAdd ES RT TSM <;> rfl

theorem session_lookup_snd (host : Host) (ES : ExecutionSession) (SearchOrder : List Nat)
    (Name : SymbolStringPtr) :
    (ES.lookup host SearchOrder Name).2 = ES.record (OrcCall.lookup SearchOrder Name) := by
  unfold ExecutionSession.lookup
  split <;> rfl

theorem lookup_eq (host : Host) (J : KaleidoscopeJIT) (Name : String) :
    J.lookup host Name =
      ((J.ES.lookup host [J.MainJD] (J.Mangle.call Name)).1,
        { J with ES := J.ES.record (OrcCall.lookup [J.MainJD] (J.Mangle.call Name)) }) := by
  rw [← session_lookup_snd host]
  rfl

theorem session_lookup_main (host : Host) (ES : ExecutionSession) (i : Nat)
    (Name : SymbolStringPtr) :
    (ES.lookup host [i] Name).1 =
      match ES.JDs[i]?.bind (fun D => D.find host Name) with
      | some d => Except.ok d
      | none => Except.error (SymbolsNotFound Name) := by
  unfold ExecutionSession.lookup
  simp only [List.findSome?]
  cases ES.JDs[i]?.bind (fun D => D.find host Name) <;> rfl


theorem dtor_log (host : Host) (J : KaleidoscopeJIT) :
    (J.dtor host).Log =
      J.ES.Log ++ OrcCall.endSession ::
        (match (J.ES.endSession host).1 with
          | some e => [OrcCall.reportError e]
          | none => []) := by
  unfold KaleidoscopeJIT.dtor ExecutionSession.endSession
  cases host.EndSession J.ES <;>
    simp [ExecutionSession.reportError, ExecutionSession.record]

theorem step_frame (host : Host) (J : KaleidoscopeJIT) (op : Op) :
    ∃ ES : ExecutionSession, J.step host op = { J with ES := ES } ∧ ES.Id = J.ES.Id ∧
      ES.Log = J.ES.Log ++ [J.callOf op] ∧ ES.JDs.length = J.ES.JDs.length := by
  cases op with
  | addModule TSM RT =>
    refine ⟨(IRCompileLayer.add host J.CompileLayer J.ES (J.trackerFor RT) TSM).2, ?_, ?_, ?_, ?_⟩
    · simp only [KaleidoscopeJIT.step, addModule_eq]
    · unfold IRCompileLayer.add
      cases host.CompileAdd J.ES (J.trackerFor RT) TSM <;> rfl
    · exact add_log host _ _ _ _
    · rw [add_JDs]
      cases host.CompileAdd J.ES (J.trackerFor RT) TSM with
      | some e => rfl
      | none => simp only [List.length_modify]
  | lookup Name =>
    exact ⟨J.ES.record (OrcCall.lookup [J.MainJD] (J.Mangle.call Name)),
      by simp only [KaleidoscopeJIT.step, lookup_eq], rfl, rfl, rfl⟩
  | dump_execution_session => exact ⟨J.ES.dump, rfl, rfl, rfl, rfl⟩

theorem run_frame (host : Host) (ops : List Op) (J : KaleidoscopeJIT) :
    ∃ ES : ExecutionSession, J.run host ops = { J with ES := ES } ∧ ES.Id = J.ES.Id ∧
      ES.Log = J.ES.Log ++ ops.map J.callOf ∧ ES.JDs.length = J.ES.JDs.length := by
  induction ops generalizing J with
  | nil => exact ⟨J.ES, rfl, rfl, by simp, rfl⟩
  | cons op ops ih =>
    obtain ⟨E1, h1, hid1, hlog1, hlen1⟩ := step_frame host J op
    obtain ⟨E2, h2, hid2, hlog2, hlen2⟩ := ih (J.step host op)
    refine ⟨E2, ?_, ?_, ?_, ?_⟩
    · show (J.step host op).run host ops = _
      rw [h2, h1]
    · rw [hid2, h1]
      exact hid1
    · rw [hlog2, h1]
      simp only [hlog1, List.map_cons, List.append_assoc, List.singleton_append]
      rfl
    · rw [hlen2, h1]
      exact hlen1

theorem step_MainInv (host : Host) (J : KaleidoscopeJIT) (op : Op) (subs : List String)
    (h : MainInv J subs) : MainInv (J.step host op) (subs ++ submittedSymbols [op]) := by
  obtain ⟨D, hD, hname, hgen, hsym⟩ := h
  cases op with
  | addModule TSM RT =>
    simp only [KaleidoscopeJIT.step, addModule_eq, MainInv, add_JDs]
    cases host.CompileAdd J.ES (J.trackerFor RT) TSM with
    | some e =>
      exact ⟨D, hD, hname, hgen, fun p hp => List.mem_append_left _ (hsym p hp)⟩
    | none =>
      simp only [List.getElem?_modify, hD, Option.map_eq_map, Option.map_some']
      by_cases hj : (J.trackerFor RT).JD = J.MainJD
      · refine ⟨{ D with
            Symbols := D.Symbols ++ TSM.symbols.map (fun s => (s, host.Place s)) },
          by rw [if_pos hj], hname, hgen, ?_⟩
        intro p hp
        rcases List.mem_append.1 hp with hp | hp
        · exact List.mem_append_left _ (hsym p hp)
        · obtain ⟨n, hn, rfl⟩ := List.mem_map.1 hp
          simp [submittedSymbols, hn]
      · exact ⟨D, by rw [if_neg hj], hname, hgen,
          fun p hp => List.mem_append_left _ (hsym p hp)⟩
  | lookup Name =>
    simp only [KaleidoscopeJIT.step, lookup_eq]
    exact ⟨D, hD, hname, hgen, fun p hp => List.mem_append_left _ (hsym p hp)⟩
  | dump_execution_session =>
    exact ⟨D, hD, hname, hgen, fun p hp => List.mem_append_left _ (hsym p hp)⟩

theorem submittedSymbols_cons (op : Op) (ops : List Op) :
    submittedSymbols (op :: ops) = submittedSymbols [op] ++ submittedSymbols ops := by
  cases op <;> simp [submittedSymbols]

theorem run_MainInv (host : Host) (ops : List Op) (J : KaleidoscopeJIT) (subs : List String)
    (h : MainInv J subs) : MainInv (J.run host ops) (subs ++ submittedSymbols ops) := by
  induction ops generalizing J subs with
  | nil => simpa [KaleidoscopeJIT.run, submittedSymbols] using h
  | cons op ops ih =>
    have h2 := ih (J.step host op) _ (step_MainInv host J op subs h)
    rw [submittedSymbols_cons, ← List.append_assoc]
    exact h2

theorem constructed_MainInv (s : ExecutionSession) (JTMB : JITTargetMachineBuilder)
    (DL : DataLayout) : MainInv (constructed s JTMB DL) [] := by
  refine ⟨{ Name := "<main>", Generators := [{ GlobalPrefix := DL.GlobalPrefix }], Symbols := [] },
    ?_, rfl, rfl, ?_⟩
  · simp [constructed]
  · intro p hp
    cases hp

theorem ctor_ok (host : Host) (ES : Option ExecutionSession) (JTMB : JITTargetMachineBuilder)
    (DL : DataLayout) (J : KaleidoscopeJIT) (h : KaleidoscopeJIT.ctor host ES JTMB DL = Except.ok J) :
    ∃ s, ES = some s ∧ host.LoadCurrentProcess = none ∧ J = constructed s JTMB DL := by
  rw [ctor_eq] at h
  cases ES with
  | none => cases h
  | some s =>
    cases hl : host.LoadCurrentProcess with
    | some e => simp [hl] at h
    | none =>
      simp only [hl, Except.ok.injEq] at h
      exact ⟨s, rfl, rfl, h.symm⟩

theorem tryToGenerate_mangled (host : Host) (DL : DataLayout) (pool : Nat) (Name : String) :
    DynamicLibrarySearchGenerator.tryToGenerate host { GlobalPrefix := DL.getGlobalPrefix }
        { Pool := pool, S := getNameWithPrefix DL Name } =
      host.ProcessSymbols.lookup Name := by
  unfold DynamicLibrarySearchGenerator.tryToGenerate getNameWithPrefix
  by_cases h0 : DL.getGlobalPrefix = Char.ofNat 0
  · simp only [h0, if_true]
  · simp [h0]

theorem find_unsubmitted (host : Host) (D : JITDylib) (DL : DataLayout) (pool : Nat)
    (Name : String) (subs : List String)
    (hgen : D.Generators = [{ GlobalPrefix := DL.getGlobalPrefix }])
    (hsym : ∀ p ∈ D.Symbols, p.1 ∈ subs) (hsub : getNameWithPrefix DL Name ∉ subs) :
    D.find host { Pool := pool, S := getNameWithPrefix DL Name } =
      host.ProcessSymbols.lookup Name := by
  have hnone : D.Symbols.lookup (getNameWithPrefix DL Name) = none := by
    rw [List.lookup_eq_none_iff]
    intro p hp
    have : getNameWithPrefix DL Name ≠ p.1 := fun he => hsub (he ▸ hsym p hp)
    simpa using this
  unfold JITDylib.find
  simp only [hnone, hgen, List.findSome?]
  rw [tryToGenerate_mangled]
  cases host.ProcessSymbols.lookup Name <;> rfl

theorem lookup_result_frame (host : Host) (J J2 : KaleidoscopeJIT) (Name : String)
    (hM : J2.Mangle = J.Mangle) (hJ : J2.MainJD = J.MainJD) (hD : J2.ES.JDs = J.ES.JDs) :
    (J2.lookup host Name).1 = (J.lookup host Name).1 := by
  rw [lookup_eq, lookup_eq]
  simp only [session_lookup_main, hM, hJ, hD]

/-! ## The claims -/

/-- C2: for every name, `lookup(name)` returns the result of one session lookup
whose search order is the one-element list holding the main dylib and whose
symbol is the mangled and interned name; that lookup is the only call it makes,
and its result depends on no dylib but the main one. -/
theorem lookup_issues_one_main_dylib_lookup (host : Host) (J : KaleidoscopeJIT) (Name : String) :
    (J.lookup host Name).1 = (J.ES.lookup host [J.getMainJITDylib] (J.Mangle.call Name)).1 ∧
    callsSince J.ES (J.lookup host Name).2.ES =
      [OrcCall.lookup [J.getMainJITDylib] (J.Mangle.call Name)] ∧
    (∀ J2 : KaleidoscopeJIT, J2.Mangle = J.Mangle →
      J2.ES.JDs[J2.getMainJITDylib]? = J.ES.JDs[J.getMainJITDylib]? →
      (J2.lookup host Name).1 = (J.lookup host Name).1) := by
  refine ⟨by rw [lookup_eq]; rfl, ?_, ?_⟩
  · apply callsSince_append
    rw [lookup_eq]
    rfl
  · intro J2 hM hD
    rw [lookup_eq, lookup_eq]
    simp only [session_lookup_main, hM]
    simp only [KaleidoscopeJIT.getMainJITDylib] at hD
    rw [hD]

/-- C3: `addModule(unit, tracker)` submits the unit under the main dylib's
default resource tracker when the tracker is null, so that on success the
unit's symbols land in the main dylib and in no other, and under exactly the
supplied tracker when it is not null; the unit is passed on unchanged. -/
theorem addModule_submits_under_tracker (host : Host) (J : KaleidoscopeJIT)
    (TSM : ThreadSafeModule) :
    callsSince J.ES (J.addModule host TSM none).2.ES =
      [OrcCall.add (JITDylib.getDefaultResourceTracker J.getMainJITDylib) TSM] ∧
    (JITDylib.getDefaultResourceTracker J.getMainJITDylib).JD = J.getMainJITDylib ∧
    (∀ RT : ResourceTracker,
      callsSince J.ES (J.addModule host TSM (some RT)).2.ES = [OrcCall.add RT TSM]) ∧
    (∀ D : JITDylib, (J.addModule host TSM none).1 = none →
      J.ES.JDs[J.getMainJITDylib]? = some D →
      (J.addModule host TSM none).2.ES.JDs[J.getMainJITDylib]? =
        some { D with Symbols := D.Symbols ++ TSM.symbols.map (fun s => (s, host.Place s)) }) ∧
    (∀ i : Nat, i ≠ J.getMainJITDylib →
      (J.addModule host TSM none).2.ES.JDs[i]? = J.ES.JDs[i]?) := by
  refine ⟨?_, rfl, ?_, ?_, ?_⟩
  · apply callsSince_append
    rw [addModule_eq]
    exact add_log host _ _ _ _
  · intro RT
    apply callsSince_append
    rw [addModule_eq]
    exact add_log host _ _ _ _
  · intro D hok hD
    rw [addModule_eq] at hok ⊢
    simp only [add_fst] at hok
    simp only [add_JDs, hok]
    simp only [KaleidoscopeJIT.trackerFor, JITDylib.getDefaultResourceTracker,
      List.getElem?_modify_eq, hD]
    rfl
  · intro i hi
    rw [addModule_eq]
    simp only [add_JDs]
    cases host.CompileAdd J.ES (J.trackerFor none) TSM with
    | some e => rfl
    | none =>
      simp only [KaleidoscopeJIT.trackerFor, JITDylib.getDefaultResourceTracker]
      exact List.getElem?_modify_ne _ _ (Ne.symm hi)

/-- C10: for every unit and tracker, `addModule` returns exactly the result of
the compile layer's `add` on the chosen tracker and the unit: it returns an
error if and only if the compile layer reports one, and then that same error. -/
theorem addModule_returns_compile_layer_result (host : Host) (J : KaleidoscopeJIT)
    (TSM : ThreadSafeModule) (RT : ResourceTrackerSP) :
    (J.addModule host TSM RT).1 =
      (IRCompileLayer.add host J.CompileLayer J.ES (J.trackerFor RT) TSM).1 ∧
    (∀ e : ErrorInfo, (J.addModule host TSM RT).1 = some e ↔
      (IRCompileLayer.add host J.CompileLayer J.ES (J.trackerFor RT) TSM).1 = some e) ∧
    ((J.addModule host TSM RT).1 = none ↔
      (IRCompileLayer.add host J.CompileLayer J.ES (J.trackerFor RT) TSM).1 = none) := by
  have h : (J.addModule host TSM RT).1 =
      (IRCompileLayer.add host J.CompileLayer J.ES (J.trackerFor RT) TSM).1 := by
    rw [addModule_eq]
  exact ⟨h, fun e => by rw [h], by rw [h]⟩

/-- C6: teardown ends the session exactly once and returns nothing that could
fail; `reportError` is called if and only if `endSession` returned an error,
with exactly that error, and nothing is reported when `endSession` succeeds. -/
theorem dtor_ends_session_once_and_reports (host : Host) (J : KaleidoscopeJIT) :
    callsSince J.ES (J.dtor host) =
      OrcCall.endSession ::
        (match (J.ES.endSession host).1 with
          | some e => [OrcCall.reportError e]
          | none => []) ∧
    (callsSince J.ES (J.dtor host)).count OrcCall.endSession = 1 ∧
    (∀ e : ErrorInfo, OrcCall.reportError e ∈ callsSince J.ES (J.dtor host) ↔
      (J.ES.endSession host).1 = some e) ∧
    ((J.ES.endSession host).1 = none → (J.dtor host).Reported = J.ES.Reported) ∧
    (∀ e : ErrorInfo, (J.ES.endSession host).1 = some e →
      (J.dtor host).Reported = J.ES.Reported ++ [e]) ∧
    (J.dtor host).SessionOpen = false := by
  have hc := callsSince_append J.ES (J.dtor host) _ (dtor_log host J)
  refine ⟨hc, ?_, ?_, ?_, ?_, ?_⟩
  · rw [hc]
    cases (J.ES.endSession host).1 <;> simp [List.count_cons]
  · intro e
    rw [hc]
    cases (J.ES.endSession host).1 <;> simp [eq_comm]
  · intro h
    simp only [ExecutionSession.endSession] at h
    simp [KaleidoscopeJIT.dtor, ExecutionSession.endSession, h]
    rfl
  · intro e h
    simp only [ExecutionSession.endSession] at h
    simp [KaleidoscopeJIT.dtor, ExecutionSession.endSession, h, ExecutionSession.reportError,
      ExecutionSession.record]
  · unfold KaleidoscopeJIT.dtor ExecutionSession.endSession
    cases host.EndSession J.ES <;> rfl


/-- C1 (as stated, refuted): on `loadFailHost` probing the host succeeds and
the default data layout is obtained, yet `Create` returns no engine: the
constructor's `cantFail` stops the process. -/
theorem Create_returns_engine_counterexample :
    (∃ EPC DL, loadFailHost.SelfCreate = Except.ok EPC ∧
      loadFailHost.getDefaultDataLayoutForTarget { TT := EPC.getTargetTriple } = Except.ok DL) ∧
    KaleidoscopeJIT.Create loadFailHost =
      Except.error (Fault.cantFail "cannot load the current process") ∧
    ¬ ∃ J, KaleidoscopeJIT.Create loadFailHost = Except.ok (Except.ok J) := by
  have h : KaleidoscopeJIT.Create loadFailHost =
      Except.error (Fault.cantFail "cannot load the current process") := by
    simp only [KaleidoscopeJIT.Create, ctor_eq]
    rfl
  refine ⟨⟨_, _, rfl, rfl⟩, h, ?_⟩
  rintro ⟨J, hJ⟩
  rw [h] at hJ
  cases hJ

/-- C1 (amended): `Create()` returns an error exactly when probing the host
fails or the default data layout of the probed triple cannot be obtained, and
then it is the underlying error; otherwise, when the current process can be
loaded, it returns an engine whose session is built on the probed process
control and whose data layout is the target's default one, and when it cannot
the process stops in `cantFail`. -/
theorem Create_returns (host : Host) :
    ((∃ e, KaleidoscopeJIT.Create host = Except.ok (Except.error e)) ↔
      ((∃ e, host.SelfCreate = Except.error e) ∨
        ∃ EPC e, host.SelfCreate = Except.ok EPC ∧
          host.getDefaultDataLayoutForTarget { TT := EPC.getTargetTriple } = Except.error e)) ∧
    (∀ e, host.SelfCreate = Except.error e →
      KaleidoscopeJIT.Create host = Except.ok (Except.error e)) ∧
    (∀ EPC e, host.SelfCreate = Except.ok EPC →
      host.getDefaultDataLayoutForTarget { TT := EPC.getTargetTriple } = Except.error e →
      KaleidoscopeJIT.Create host = Except.ok (Except.error e)) ∧
    (∀ EPC DL, host.SelfCreate = Except.ok EPC →
      host.getDefaultDataLayoutForTarget { TT := EPC.getTargetTriple } = Except.ok DL →
      host.LoadCurrentProcess = none →
      ∃ J, KaleidoscopeJIT.Create host = Except.ok (Except.ok J) ∧
        J.ES.getExecutorProcessControl = EPC ∧ J.ES.Id = host.SessionId ∧
        J.getDataLayout = DL) ∧
    (∀ EPC DL e, host.SelfCreate = Except.ok EPC →
      host.getDefaultDataLayoutForTarget { TT := EPC.getTargetTriple } = Except.ok DL →
      host.LoadCurrentProcess = some e →
      KaleidoscopeJIT.Create host = Except.error (Fault.cantFail e)) := by
  have h1 : ∀ e, host.SelfCreate = Except.error e →
      KaleidoscopeJIT.Create host = Except.ok (Except.error e) := by
    intro e h
    simp [KaleidoscopeJIT.Create, h]
  have h2 : ∀ EPC e, host.SelfCreate = Except.ok EPC →
      host.getDefaultDataLayoutForTarget { TT := EPC.getTargetTriple } = Except.error e →
      KaleidoscopeJIT.Create host = Except.ok (Except.error e) := by
    intro EPC e h hd
    simp only [ExecutorProcessControl.getTargetTriple] at hd
    simp [KaleidoscopeJIT.Create, h, ExecutionSession.new,
      ExecutionSession.getExecutorProcessControl, ExecutorProcessControl.getTargetTriple, hd]
  have h3 : ∀ EPC DL, host.SelfCreate = Except.ok EPC →
      host.getDefaultDataLayoutForTarget { TT := EPC.getTargetTriple } = Except.ok DL →
      KaleidoscopeJIT.Create host =
        match host.LoadCurrentProcess with
        | some e => Except.error (Fault.cantFail e)
        | none => Except.ok (Except.ok
            (constructed (ExecutionSession.new host.SessionId EPC) { TT := EPC.getTargetTriple } DL)) := by
    intro EPC DL h hd
    simp only [ExecutorProcessControl.getTargetTriple] at hd
    simp only [KaleidoscopeJIT.Create, h, ExecutionSession.new,
      ExecutionSession.getExecutorProcessControl, ExecutorProcessControl.getTargetTriple, hd,
      ctor_eq]
    cases host.LoadCurrentProcess <;> rfl
  refine ⟨⟨?_, ?_⟩, h1, h2, ?_, ?_⟩
  · rintro ⟨e, he⟩
    cases hp : host.SelfCreate with
    | error e1 => exact Or.inl ⟨e1, rfl⟩
    | ok EPC =>
      cases hd : host.getDefaultDataLayoutForTarget { TT := EPC.getTargetTriple } with
      | error e2 => exact Or.inr ⟨EPC, e2, rfl, hd⟩
      | ok DL =>
        rw [h3 EPC DL hp hd] at he
        cases hl : host.LoadCurrentProcess <;> simp [hl] at he
  · rintro (⟨e, he⟩ | ⟨EPC, e, hp, hd⟩)
    · exact ⟨e, h1 e he⟩
    · exact ⟨e, h2 EPC e hp hd⟩
  · intro EPC DL hp hd hl
    rw [h3 EPC DL hp hd, hl]
    exact ⟨_, rfl, rfl, rfl, rfl⟩
  · intro EPC DL e hp hd hl
    rw [h3 EPC DL hp hd, hl]

/-- C1 (amended), evaluated on `elfHost`: `Create` returns an engine. -/
theorem Create_returns_witness :
    ∃ J, KaleidoscopeJIT.Create elfHost = Except.ok (Except.ok J) ∧
      J.ES.getExecutorProcessControl =
        { TargetTriple :=
            { Data := "x86_64-unknown-linux-gnu", ObjectFormat := ObjectFormatType.ELF },
          PageSize := 4096 } ∧
      J.ES.Id = elfHost.SessionId ∧ J.getDataLayout = elfLayout :=
  (Create_returns elfHost).2.2.2.1 _ _ rfl rfl rfl

/-- C8: in a constructed engine both linking-layer options are on if and only
if the object format of the triple of the builder passed to the constructor is
COFF, and for any other target the linking layer is as newly constructed, both
options off; the compiler holds the builder as it was passed in. -/
theorem ctor_sets_linking_options_iff_COFF (host : Host) (ES : Option ExecutionSession)
    (JTMB : JITTargetMachineBuilder) (DL : DataLayout) (J : KaleidoscopeJIT)
    (h : KaleidoscopeJIT.ctor host ES JTMB DL = Except.ok J) :
    ((J.ObjectLayer.OverrideObjectFlags = true ∧ J.ObjectLayer.AutoClaimObjectSymbols = true) ↔
      JTMB.getTargetTriple.ObjectFormat = ObjectFormatType.COFF) ∧
    (J.ObjectLayer.OverrideObjectFlags = true ↔
      JTMB.getTargetTriple.ObjectFormat = ObjectFormatType.COFF) ∧
    (J.ObjectLayer.AutoClaimObjectSymbols = true ↔
      JTMB.getTargetTriple.ObjectFormat = ObjectFormatType.COFF) ∧
    (JTMB.getTargetTriple.ObjectFormat ≠ ObjectFormatType.COFF →
      J.ObjectLayer =
        RTDyldObjectLinkingLayer.new J.ES GetMemoryManagerFunction.SectionMemoryManager) ∧
    J.CompileLayer.Compile.JTMB = JTMB := by
  obtain ⟨s, rfl, -, rfl⟩ := ctor_ok host ES JTMB DL J h
  simp only [constructed, Triple.isOSBinFormatCOFF, JITTargetMachineBuilder.getTargetTriple,
    decide_eq_true_eq, and_self, true_and, and_true, RTDyldObjectLinkingLayer.new]
  intro hne
  simp [hne]

/-- C8, evaluated for a COFF builder: both options are on. -/
theorem ctor_sets_linking_options_iff_COFF_witness :
    ∃ J, KaleidoscopeJIT.ctor elfHost (some freshSession) coffBuilder elfLayout = Except.ok J ∧
      J.ObjectLayer.OverrideObjectFlags = true ∧ J.ObjectLayer.AutoClaimObjectSymbols = true :=
  ⟨constructed freshSession coffBuilder elfLayout, ctor_eq _ _ _ _,
    (ctor_sets_linking_options_iff_COFF elfHost (some freshSession) coffBuilder elfLayout _
      (ctor_eq _ _ _ _)).1.2 rfl⟩


/-- C9: the constructor never reads a member before its initialiser has run,
each initialiser reading only members declared earlier in the order ES, DL,
Mangle, ObjectLayer, CompileLayer, MainJD; in a constructed engine the mangler,
the linking layer and the compile layer are built over the engine's own
session, the mangler works over the data layout `getDataLayout()` returns,
which is the one passed to the constructor (for `Create`, the default data
layout of the probed triple), and no later operation changes any of this. -/
theorem ctor_members_initialised_before_use (host : Host) (ES : Option ExecutionSession)
    (JTMB : JITTargetMachineBuilder) (DL : DataLayout) :
    (∀ m, KaleidoscopeJIT.ctor host ES JTMB DL ≠ Except.error (Fault.uninitialised m)) ∧
    (∀ m ∈ declarationOrder, ∀ r ∈ initialiserReads m,
      declarationOrder.indexOf r < declarationOrder.indexOf m) ∧
    (∀ J, KaleidoscopeJIT.ctor host ES JTMB DL = Except.ok J →
      J.Mangle.ES = J.ES.Id ∧ J.Mangle.DL = J.getDataLayout ∧ J.getDataLayout = DL ∧
      J.ObjectLayer.ES = J.ES.Id ∧ J.CompileLayer.ES = J.ES.Id ∧
      J.CompileLayer.BaseLayer = Member.ObjectLayer ∧
      (∀ Name, J.Mangle.call Name =
        { Pool := J.ES.Id, S := getNameWithPrefix J.getDataLayout Name }) ∧
      ∀ ops, (J.run host ops).Mangle = J.Mangle ∧
        (J.run host ops).getDataLayout = J.getDataLayout ∧
        (J.run host ops).ES.Id = J.ES.Id) ∧
    (∀ J, KaleidoscopeJIT.Create host = Except.ok (Except.ok J) →
      ∃ EPC, host.SelfCreate = Except.ok EPC ∧
        host.getDefaultDataLayoutForTarget { TT := EPC.getTargetTriple } =
          Except.ok J.getDataLayout ∧
        J.Mangle.DL = J.getDataLayout ∧ J.Mangle.ES = J.ES.Id) := by
  refine ⟨?_, by decide, ?_, ?_⟩
  · intro m
    rw [ctor_eq]
    cases ES with
    | none => simp
    | some s => cases host.LoadCurrentProcess <;> simp
  · intro J h
    obtain ⟨s, rfl, -, rfl⟩ := ctor_ok host ES JTMB DL J h
    refine ⟨rfl, rfl, rfl, rfl, rfl, rfl, fun _ => rfl, ?_⟩
    intro ops
    obtain ⟨E, hE, hid, -, -⟩ := run_frame host ops (constructed s JTMB DL)
    rw [hE]
    exact ⟨rfl, rfl, hid⟩
  · intro J h
    unfold KaleidoscopeJIT.Create at h
    cases hp : host.SelfCreate with
    | error e => simp [hp] at h
    | ok EPC =>
      simp only [hp] at h
      cases hd : host.getDefaultDataLayoutForTarget
          { TT := (ExecutionSession.new host.SessionId EPC).getExecutorProcessControl.getTargetTriple } with
      | error e => simp [hd] at h
      | ok DL0 =>
        simp only [hd] at h
        cases hc : KaleidoscopeJIT.ctor host (some (ExecutionSession.new host.SessionId EPC))
            { TT := (ExecutionSession.new host.SessionId EPC).getExecutorProcessControl.getTargetTriple }
            DL0 with
        | error f => simp [hc] at h
        | ok J0 =>
          simp only [hc, Except.ok.injEq] at h
          subst h
          obtain ⟨s, -, -, rfl⟩ := ctor_ok _ _ _ _ _ hc
          exact ⟨EPC, rfl, hd, rfl, rfl⟩

/-- C9, evaluated on `elfHost`: the engine made there mangles over its own
session and over the data layout passed in. -/
theorem ctor_members_initialised_before_use_witness :
    ∃ J, KaleidoscopeJIT.ctor elfHost (some freshSession) elfBuilder machoLayout = Except.ok J ∧
      J.Mangle.ES = J.ES.Id ∧ J.Mangle.DL = J.getDataLayout ∧ J.getDataLayout = machoLayout :=
  ⟨constructed freshSession elfBuilder machoLayout, ctor_eq _ _ _ _,
    ((ctor_members_initialised_before_use elfHost (some freshSession) elfBuilder machoLayout).2.2.1
      _ (ctor_eq _ _ _ _)).1,
    ((ctor_members_initialised_before_use elfHost (some freshSession) elfBuilder machoLayout).2.2.1
      _ (ctor_eq _ _ _ _)).2.1,
    ((ctor_members_initialised_before_use elfHost (some freshSession) elfBuilder machoLayout).2.2.1
      _ (ctor_eq _ _ _ _)).2.2.1⟩

/-- C7: the constructor creates exactly one dylib in the session, named
"<main>", and gives it exactly one generator, the current-process generator
made with the global prefix of the engine's data layout; `getMainJITDylib()`
designates that dylib, and no sequence of later operations (`addModule`,
`lookup`, dump) creates a dylib, changes which dylib is the main one, or changes
its name or generators. -/
theorem ctor_creates_one_main_dylib (host : Host) (s : ExecutionSession)
    (JTMB : JITTargetMachineBuilder) (DL : DataLayout) (J : KaleidoscopeJIT)
    (h : KaleidoscopeJIT.ctor host (some s) JTMB DL = Except.ok J) :
    DynamicLibrarySearchGenerator.GetForCurrentProcess host J.getDataLayout.getGlobalPrefix =
      Except.ok { GlobalPrefix := J.getDataLayout.getGlobalPrefix } ∧
    callsSince s J.ES =
      [OrcCall.createBareJITDylib "<main>",
       OrcCall.addGenerator J.getMainJITDylib { GlobalPrefix := J.getDataLayout.getGlobalPrefix }] ∧
    J.ES.JDs = s.JDs ++
      [{ Name := "<main>", Generators := [{ GlobalPrefix := J.getDataLayout.getGlobalPrefix }],
         Symbols := [] }] ∧
    J.ES.JDs[J.getMainJITDylib]? =
      some { Name := "<main>", Generators := [{ GlobalPrefix := J.getDataLayout.getGlobalPrefix }],
             Symbols := [] } ∧
    ∀ ops : List Op,
      (J.run host ops).getMainJITDylib = J.getMainJITDylib ∧
      (J.run host ops).ES.JDs.length = J.ES.JDs.length ∧
      (∀ c ∈ callsSince J.ES (J.run host ops).ES, ∀ n, c ≠ OrcCall.createBareJITDylib n) ∧
      ∃ D : JITDylib, (J.run host ops).ES.JDs[J.getMainJITDylib]? = some D ∧ D.Name = "<main>" ∧
        D.Generators = [{ GlobalPrefix := J.getDataLayout.getGlobalPrefix }] := by
  obtain ⟨s1, hs, hl, rfl⟩ := ctor_ok host (some s) JTMB DL J h
  cases hs
  refine ⟨?_, ?_, rfl, ?_, ?_⟩
  · simp [DynamicLibrarySearchGenerator.GetForCurrentProcess, hl]
  · apply callsSince_append
    rfl
  · simp [constructed, KaleidoscopeJIT.getMainJITDylib, KaleidoscopeJIT.getDataLayout,
      DataLayout.getGlobalPrefix]
  · intro ops
    obtain ⟨E, hE, -, hlog, hlen⟩ := run_frame host ops (constructed s JTMB DL)
    obtain ⟨D, hD, hname, hgen, -⟩ :=
      run_MainInv host ops (constructed s JTMB DL) [] (constructed_MainInv s JTMB DL)
    refine ⟨by rw [hE]; rfl, by rw [hE]; exact hlen, ?_, ?_⟩
    · intro c hc n hcn
      rw [callsSince_append _ _ _ (by rw [hE]; exact hlog)] at hc
      obtain ⟨op, -, rfl⟩ := List.mem_map.1 hc
      cases op <;> cases hcn
    · refine ⟨D, ?_, hname, ?_⟩
      · rw [hE] at hD
        rw [hE]
        exact hD
      · rw [hE] at hgen
        exact hgen

/-- C7, evaluated on `elfHost` with a fresh session: after an `addModule` and
a `lookup` the session still has the one dylib the constructor created. -/
theorem ctor_creates_one_main_dylib_witness :
    ∃ J, KaleidoscopeJIT.ctor elfHost (some freshSession) elfBuilder elfLayout = Except.ok J ∧
      J.ES.JDs.length = 1 ∧
      (J.run elfHost
        [Op.addModule { M := some { ModuleID := "m", Symbols := ["f"] } } none,
         Op.lookup "f"]).ES.JDs.length = 1 :=
  ⟨constructed freshSession elfBuilder elfLayout, ctor_eq _ _ _ _, rfl,
    ((ctor_creates_one_main_dylib elfHost freshSession elfBuilder elfLayout _
      (ctor_eq _ _ _ _)).2.2.2.2 _).2.1⟩


/-- C4 (as stated, refuted): on `elfHost`, whose process exports `sin`, no
unit was ever submitted to the engine `Create` returns, and still
`lookup("sin")` returns an address: the main dylib's current-process generator
resolves it. -/
theorem lookup_never_submitted_counterexample :
    ∃ J, KaleidoscopeJIT.Create elfHost = Except.ok (Except.ok J) ∧
      submittedSymbols [] = [] ∧
      ((J.run elfHost []).lookup elfHost "sin").1 =
        Except.ok { Address := 4096, Callable := true } :=
  ⟨constructed freshSession elfBuilder elfLayout,
    by simp only [KaleidoscopeJIT.Create, ctor_eq]; rfl, rfl, by
      rw [lookup_eq, session_lookup_main]
      rfl⟩

/-- C4 (amended): for every name whose linker-level form is defined by no unit
submitted through `addModule`, `lookup(name)` returns what the running process
exports under that name: its address when the process exports the name, and a
not-found error when it does not; and a lookup, failed or not, leaves every
name's resolution as it was. -/
theorem lookup_of_unsubmitted_name (host : Host) (s : ExecutionSession)
    (JTMB : JITTargetMachineBuilder) (DL : DataLayout) (J : KaleidoscopeJIT) (ops : List Op)
    (Name : String)
    (h : KaleidoscopeJIT.ctor host (some s) JTMB DL = Except.ok J)
    (hsub : getNameWithPrefix J.getDataLayout Name ∉ submittedSymbols ops) :
    ((J.run host ops).lookup host Name).1 =
      (match host.ProcessSymbols.lookup Name with
        | some d => Except.ok d
        | none => Except.error (SymbolsNotFound ((J.run host ops).Mangle.call Name))) ∧
    (host.ProcessSymbols.lookup Name = none →
      ((J.run host ops).lookup host Name).1 =
        Except.error (SymbolsNotFound ((J.run host ops).Mangle.call Name))) ∧
    ∀ Name2 : String,
      ((((J.run host ops).lookup host Name).2).lookup host Name2).1 =
        ((J.run host ops).lookup host Name2).1 := by
  obtain ⟨s1, hs, -, rfl⟩ := ctor_ok host (some s) JTMB DL J h
  cases hs
  obtain ⟨E, hE, hid, -, -⟩ := run_frame host ops (constructed s JTMB DL)
  obtain ⟨D, hD, -, hgen, hsym⟩ :=
    run_MainInv host ops (constructed s JTMB DL) [] (constructed_MainInv s JTMB DL)
  rw [hE] at hD hgen
  have hmain : ((constructed s JTMB DL).run host ops).lookup host Name =
      ((match host.ProcessSymbols.lookup Name with
        | some d => Except.ok d
        | none => Except.error
            (SymbolsNotFound (((constructed s JTMB DL).run host ops).Mangle.call Name))),
        { (constructed s JTMB DL).run host ops with
          ES := ((constructed s JTMB DL).run host ops).ES.record
            (OrcCall.lookup [((constructed s JTMB DL).run host ops).MainJD]
              (((constructed s JTMB DL).run host ops).Mangle.call Name)) }) := by
    rw [lookup_eq, session_lookup_main]
    rw [hE]
    have hf := find_unsubmitted host D DL s.Id Name ([] ++ submittedSymbols ops) hgen hsym
      (by simpa using hsub)
    have hcall : (constructed s JTMB DL).Mangle.call Name =
        { Pool := s.Id, S := getNameWithPrefix DL Name } := rfl
    simp only [hD, Option.bind, hcall, hf]
  refine ⟨by rw [hmain], ?_, ?_⟩
  · intro hnone
    rw [hmain, hnone]
  · intro Name2
    apply lookup_result_frame
    · rw [hmain]
    · rw [hmain]
    · rw [hmain]
      rfl

/-- C4 (amended), evaluated on `elfHost`: after a unit defining `f` was
submitted, the name `g`, neither submitted nor exported by the process, is not
found. -/
theorem lookup_of_unsubmitted_name_witness :
    ∃ J, KaleidoscopeJIT.ctor elfHost (some freshSession) elfBuilder elfLayout = Except.ok J ∧
      ((J.run elfHost
          [Op.addModule { M := some { ModuleID := "m", Symbols := ["f"] } } none]).lookup
        elfHost "g").1 =
        Except.error (SymbolsNotFound { Pool := 1, S := "g" }) :=
  ⟨constructed freshSession elfBuilder elfLayout, ctor_eq _ _ _ _,
    (lookup_of_unsubmitted_name elfHost freshSession elfBuilder elfLayout _
      [Op.addModule { M := some { ModuleID := "m", Symbols := ["f"] } } none] "g"
      (ctor_eq _ _ _ _) (by decide)).2.1 rfl⟩

end xo.jit
